import Mathlib

/-!
Shallow embedding of the pagination / query core of `stock_data_query.py`
(`StockQuery`).  The database tables are modelled as Lean lists of records;
each method of `StockQuery` becomes a pure function.  A method that performs
several storage reads (a count for validation, the row fetch, a re-count)
takes one dataset snapshot per storage read, so that claims about a dataset
that changes between the reads can be stated; fixed-dataset claims
instantiate all snapshots with the same list.

SQL modelling conventions:
* `ORDER BY c ASC LIMIT l OFFSET o` over a table `t` is
  `((sort t).drop o).take l` where `sort` is a stable sort by `c`.
* `COUNT(*)` with a `WHERE` clause is `(t.filter p).length`.
* MySQL `WEEKDAY(d)` (0 = Monday .. 6 = Sunday) is modelled by taking
  `trade_date : Int` as a day count from a Monday epoch, so the weekday
  index is `trade_date % 7`.
* Each distinct `ValueError` message of the source becomes a distinct
  `QueryError` constructor carrying the data interpolated into the message.
-/

/-- A row of the `stocks` table (the columns selected by every list query). -/
structure Stock where
  id : Nat
  ts_code : String
  symbol : String
  name : String
  area : String
  industry : String
  list_date : String
deriving DecidableEq, Repr

/-- The errors raised by the query layer.  `invalidArgument` models the
`ValueError`s raised by argument validation (carrying the source's message),
`pageOutOfRange` the `ValueError` of the pre-fetch page check (carrying the
requested page and the computed total page count), and `pageBeyondData` the
`ValueError` of the post-fetch re-check in `get_stocks_by_page_number`
(carrying the requested page and the re-sampled total record count). -/
inductive QueryError where
  | invalidArgument (msg : String)
  | pageOutOfRange (requested : Int) (total_pages : Nat)
  | pageBeyondData (requested : Int) (actual_total : Nat)
deriving DecidableEq, Repr

deriving instance DecidableEq for Except

/-- The comparison used by `ORDER BY id ASC` on rows of `stocks`. -/
def stockIdLe (a b : Stock) : Prop := a.id ≤ b.id

instance : DecidableRel stockIdLe := fun a b => Nat.decLe a.id b.id

instance : IsTotal Stock stockIdLe := ⟨fun a b => Nat.le_total a.id b.id⟩

instance : IsTrans Stock stockIdLe := ⟨fun _ _ _ h h' => Nat.le_trans h h'⟩

/-- `ORDER BY id ASC` on rows of `stocks`, modelled by a stable sort. -/
def sortById (l : List Stock) : List Stock :=
  l.insertionSort stockIdLe

/-- `LIMIT limit OFFSET offset` applied to an already ordered row list.
MySQL receives the two bound parameters as integers; a negative value
cannot be produced on the paths the claims range over. -/
def sqlSlice (l : List Stock) (limit offset : Int) : List Stock :=
  (l.drop offset.toNat).take limit.toNat

/-- `SELECT COUNT(*) FROM stocks` (method `get_total_records`). -/
def get_total_records (d : List Stock) : Nat := d.length

/-- Method `get_total_pages`: `(total + 20 - 1) // 20 if total > 0 else 0`. -/
def get_total_pages (d : List Stock) : Nat :=
  let total_count := get_total_records d
  if total_count > 0 then (total_count + 20 - 1) / 20 else 0

/-- Method `get_stocks_by_page_number(n, check_total=True)`.
`d1` is the dataset snapshot read by `get_total_pages` during validation,
`d2` the snapshot read by the row fetch, and `d3` the snapshot read by the
`get_total_records` re-check that runs when the fetch came back empty. -/
def get_stocks_by_page_number (n : Int) (check_total : Bool)
    (d1 d2 d3 : List Stock) : Except QueryError (List Stock) :=
  if n < 1 then .error (.invalidArgument "页码n必须大于等于1")
  else if check_total = true ∧ (get_total_pages d1 : Int) < n then
    .error (.pageOutOfRange n (get_total_pages d1))
  else
    let offset : Int := 20 * (n - 1)
    let limit : Int := 20
    let rows := sqlSlice (sortById d2) limit offset
    if rows = [] ∧ 1 < n ∧ check_total = true then
      if (get_total_records d3 : Int) ≤ offset then
        .error (.pageBeyondData n (get_total_records d3))
      else .ok rows
    else .ok rows

/-- `SELECT COUNT(*) FROM stocks WHERE area = :area`
(method `get_area_total_records`). -/
def get_area_total_records (d : List Stock) (area : String) : Nat :=
  (d.filter (fun s => s.area == area)).length

/-- Method `get_area_total_pages`. -/
def get_area_total_pages (d : List Stock) (area : String) : Nat :=
  let total := get_area_total_records d area
  if total > 0 then (total + 20 - 1) / 20 else 0

/-- Method `get_stocks_by_page_and_area(n, area)`.
`d1` is the snapshot read by the first `get_area_total_records` call,
`d2` the snapshot read by the count inside `get_area_total_pages`, and
`d3` the snapshot read by the row fetch. -/
def get_stocks_by_page_and_area (n : Int) (area : String)
    (d1 d2 d3 : List Stock) : Except QueryError (List Stock) :=
  if n < 1 then .error (.invalidArgument "页码n必须大于等于1")
  else if area = "" then .error (.invalidArgument "地域参数不能为空")
  else
    let area_total := get_area_total_records d1 area
    if area_total = 0 then .ok []
    else
      let total_pages := get_area_total_pages d2 area
      if (total_pages : Int) < n then .error (.pageOutOfRange n total_pages)
      else
        let offset : Int := 20 * (n - 1)
        let limit : Int := if n < (total_pages : Int) then 20
          else (area_total : Int) - offset
        .ok (sqlSlice (sortById (d3.filter (fun s => s.area == area)))
          limit offset)

/-- `SELECT COUNT(*) FROM stocks WHERE industry = :industry`
(method `get_industry_total_records`). -/
def get_industry_total_records (d : List Stock) (industry : String) : Nat :=
  (d.filter (fun s => s.industry == industry)).length

/-- Method `get_industry_total_pages`. -/
def get_industry_total_pages (d : List Stock) (industry : String) : Nat :=
  let total := get_industry_total_records d industry
  if total > 0 then (total + 20 - 1) / 20 else 0

/-- Method `get_stocks_by_page_and_industry(n, industry)`; snapshots as in
`get_stocks_by_page_and_area`. -/
def get_stocks_by_page_and_industry (n : Int) (industry : String)
    (d1 d2 d3 : List Stock) : Except QueryError (List Stock) :=
  if n < 1 then .error (.invalidArgument "页码n必须大于等于1")
  else if industry = "" then .error (.invalidArgument "行业参数不能为空")
  else
    let total := get_industry_total_records d1 industry
    if total = 0 then .ok []
    else
      let total_pages := get_industry_total_pages d2 industry
      if (total_pages : Int) < n then .error (.pageOutOfRange n total_pages)
      else
        let offset : Int := 20 * (n - 1)
        let limit : Int := if n < (total_pages : Int) then 20
          else (total : Int) - offset
        .ok (sqlSlice (sortById (d3.filter (fun s => s.industry == industry)))
          limit offset)

/-- Method `get_stock_by_symbol`: `WHERE symbol = :symbol LIMIT 1`,
first matching row in table order, `None` when no row matches. -/
def get_stock_by_symbol (d : List Stock) (symbol : String) :
    Except QueryError (Option Stock) :=
  if symbol = "" then .error (.invalidArgument "股票代码不能为空")
  else .ok (d.find? (fun s => s.symbol == symbol))

/-- Method `get_stock_by_name`. -/
def get_stock_by_name (d : List Stock) (name : String) :
    Except QueryError (Option Stock) :=
  if name = "" then .error (.invalidArgument "股票名称不能为空")
  else .ok (d.find? (fun s => s.name == name))

/-- A row of the `stock_daily_data` table.  `trade_date` is a day count
from a Monday epoch (so MySQL `WEEKDAY(trade_date)` is `trade_date % 7`);
the OHLCV payload columns returned by `SELECT *` are carried along but never
inspected by the query logic (`open` is renamed `open_p`, a Lean keyword). -/
structure DailyBar where
  ts_code : String
  trade_date : Int
  open_p : Int
  close : Int
  high : Int
  low : Int
  vol : Int
  amount : Int
deriving DecidableEq, Repr

/-- The comparison used by `ORDER BY trade_date DESC` on daily bars. -/
def barDateGe (a b : DailyBar) : Prop := b.trade_date ≤ a.trade_date

instance : DecidableRel barDateGe := fun a b => Int.decLe b.trade_date a.trade_date

instance : IsTotal DailyBar barDateGe := ⟨fun a b => Int.le_total b.trade_date a.trade_date⟩

instance : IsTrans DailyBar barDateGe := ⟨fun _ _ _ h h' => Int.le_trans h' h⟩

/-- Method `get_recent_7_days_data(ts_code)` evaluated with `CURDATE()`
equal to `today`: rows of `ts_code` with
`trade_date >= DATE_SUB(CURDATE(), INTERVAL 14 DAY)` and
`WEEKDAY(trade_date) < 5`, ordered `trade_date DESC`, `LIMIT 7`. -/
def get_recent_7_days_data (table : List DailyBar) (today : Int)
    (ts_code : String) : Except QueryError (List DailyBar) :=
  if ts_code = "" then .error (.invalidArgument "股票唯一代码不能为空")
  else
    let matching := table.filter (fun b =>
      b.ts_code == ts_code && decide (today - 14 ≤ b.trade_date)
        && decide (b.trade_date % 7 < 5))
    .ok ((matching.insertionSort barDateGe).take 7)

/-- The row list produced by a successful `get_recent_7_days_data` call:
matching rows, ordered by descending trade date, truncated to 7. -/
def recent7Rows (table : List DailyBar) (today : Int) (code : String) :
    List DailyBar :=
  ((table.filter (fun b => b.ts_code == code
    && decide (today - 14 ≤ b.trade_date)
    && decide (b.trade_date % 7 < 5))).insertionSort barDateGe).take 7

/-- A row of `stock_technical_indicators_clean` (indicator payload columns
of `SELECT *` carried but not inspected). -/
structure IndicatorRow where
  id : Nat
  ts_code : String
  ma5 : Int
  rsi : Int
  macd : Int
deriving DecidableEq, Repr

/-- The comparison used by `ORDER BY id DESC` on indicator rows. -/
def indicatorIdGe (a b : IndicatorRow) : Prop := b.id ≤ a.id

instance : DecidableRel indicatorIdGe := fun a b => Nat.decLe b.id a.id

instance : IsTotal IndicatorRow indicatorIdGe := ⟨fun a b => Nat.le_total b.id a.id⟩

instance : IsTrans IndicatorRow indicatorIdGe := ⟨fun _ _ _ h h' => Nat.le_trans h' h⟩

/-- Method `get_latest_technical_indicators`: `ORDER BY id DESC LIMIT 1`,
`None` when no row matches. -/
def get_latest_technical_indicators (table : List IndicatorRow)
    (ts_code : String) : Except QueryError (Option IndicatorRow) :=
  if ts_code = "" then .error (.invalidArgument "股票唯一代码不能为空")
  else
    .ok (((table.filter (fun r => r.ts_code == ts_code)).insertionSort
      indicatorIdGe).head?)

/-- A row of the `ai_predictions` table. -/
structure PredictionRow where
  id : Nat
  ts_code : String
  predict_date : Int
  for_date : Int
  prediction_score : Int
deriving DecidableEq, Repr

/-- The comparison used by `ORDER BY id DESC` on prediction rows. -/
def predictionIdGe (a b : PredictionRow) : Prop := b.id ≤ a.id

instance : DecidableRel predictionIdGe := fun a b => Nat.decLe b.id a.id

instance : IsTotal PredictionRow predictionIdGe := ⟨fun a b => Nat.le_total b.id a.id⟩

instance : IsTrans PredictionRow predictionIdGe := ⟨fun _ _ _ h h' => Nat.le_trans h' h⟩

/-- Method `get_today_predictions_by_ts_code` evaluated with `CURDATE()`
equal to `today`. -/
def get_today_predictions_by_ts_code (table : List PredictionRow)
    (today : Int) (ts_code : String) : Except QueryError (List PredictionRow) :=
  if ts_code = "" then .error (.invalidArgument "股票唯一代码不能为空")
  else
    .ok ((table.filter (fun r => r.ts_code == ts_code
      && r.predict_date == today)).insertionSort predictionIdGe)

/-- A concrete `stocks` row used to build test datasets. -/
def mkStock (i : Nat) (area industry : String) : Stock :=
  { id := i, ts_code := toString i, symbol := toString i, name := toString i,
    area := area, industry := industry, list_date := "20200101" }

/-- A dataset of `k` stocks with ids `1..k`, all in area `SZ`,
industry `Tech`. -/
def mkStocks (k : Nat) : List Stock :=
  (List.range k).map (fun i => mkStock (i + 1) "SZ" "Tech")

/-- A concrete daily bar for ticker `000001.SZ` on day `d` (zero payload). -/
def mkBar (d : Int) : DailyBar :=
  { ts_code := "000001.SZ", trade_date := d, open_p := 0, close := 0,
    high := 0, low := 0, vol := 0, amount := 0 }

/-- Daily bars for `000001.SZ` on every weekday of the 15-day window
`[0, 14]` (day 0 and day 14 are Mondays under the Monday-epoch
convention). -/
def weekdayBars : List DailyBar :=
  [mkBar 0, mkBar 1, mkBar 2, mkBar 3, mkBar 4, mkBar 7, mkBar 8,
   mkBar 9, mkBar 10, mkBar 11, mkBar 14]

/-! ### General lemmas about the sort and slice model -/

theorem sortById_length (l : List Stock) : (sortById l).length = l.length := by
  simp [sortById, List.length_insertionSort]

theorem sortById_sorted (l : List Stock) : (sortById l).Sorted stockIdLe :=
  List.sorted_insertionSort stockIdLe l

theorem sqlSlice_length (l : List Stock) (limit offset : Int) :
    (sqlSlice l limit offset).length = min limit.toNat (l.length - offset.toNat) := by
  simp [sqlSlice]

/-- The page-count formula of the source, `(c + 20 - 1) // 20` for `c > 0`,
agrees with the mathematical ceiling of `c / 20`. -/
theorem pages_cast_eq_ceil (c : ℕ) (hc : 0 < c) :
    (((c + 20 - 1) / 20 : ℕ) : ℤ) = ⌈(c : ℚ) / 20⌉ := by
  rw [eq_comm, Int.ceil_eq_iff]
  obtain ⟨k, hk⟩ : ∃ k, (c + 20 - 1) / 20 = k := ⟨_, rfl⟩
  have h1 : c ≤ 20 * k := by omega
  have h2 : 20 * k < c + 20 := by omega
  have h1q : (c : ℚ) ≤ 20 * k := by exact_mod_cast h1
  have h2q : (20 : ℚ) * k < c + 20 := by exact_mod_cast h2
  rw [hk]
  constructor
  · rw [lt_div_iff₀ (by norm_num : (0:ℚ) < 20)]
    push_cast
    linarith
  · rw [div_le_iff₀ (by norm_num : (0:ℚ) < 20)]
    push_cast
    linarith

theorem pages_formula_cases (c : ℕ) :
    ((if 0 < c then (c + 20 - 1) / 20 else 0 : ℕ) : ℤ) =
      if c = 0 then 0 else ⌈(c : ℚ) / 20⌉ := by
  rcases Nat.eq_zero_or_pos c with h | h
  · subst h; simp
  · rw [if_pos h, if_neg (by omega)]
    exact pages_cast_eq_ceil c h

/-- If page `n ≥ 1` does not exceed the page count of a dataset with `len`
records, then the offset `20 * (n - 1)` lies strictly inside the dataset. -/
theorem offset_lt_of_le_pages (n : Int) (len : ℕ) (h1 : 1 ≤ n)
    (h2 : n ≤ ((if 0 < len then (len + 20 - 1) / 20 else 0 : ℕ) : ℤ)) :
    (20 * (n - 1)).toNat < len := by
  rcases Nat.eq_zero_or_pos len with h | h
  · subst h; simp at h2; omega
  · rw [if_pos h] at h2; omega

/-- On a valid page of a non-empty area filter, `get_stocks_by_page_and_area`
reaches the fetch and returns it, with the source's limit expression. -/
theorem area_ok_shape (n : Int) (area : String) (d1 d2 d3 : List Stock)
    (h1 : 1 ≤ n) (ha : area ≠ "")
    (hc : get_area_total_records d1 area ≠ 0)
    (h2 : ¬((get_area_total_pages d2 area : ℤ) < n)) :
    get_stocks_by_page_and_area n area d1 d2 d3 =
      .ok (sqlSlice (sortById (d3.filter (fun s => s.area == area)))
        (if n < (get_area_total_pages d2 area : ℤ) then 20
          else (get_area_total_records d1 area : ℤ) - 20 * (n - 1))
        (20 * (n - 1))) := by
  unfold get_stocks_by_page_and_area
  rw [if_neg (by omega), if_neg ha, if_neg hc, if_neg h2]

/-- Industry analogue of `area_ok_shape`. -/
theorem industry_ok_shape (n : Int) (industry : String) (d1 d2 d3 : List Stock)
    (h1 : 1 ≤ n) (hi : industry ≠ "")
    (hc : get_industry_total_records d1 industry ≠ 0)
    (h2 : ¬((get_industry_total_pages d2 industry : ℤ) < n)) :
    get_stocks_by_page_and_industry n industry d1 d2 d3 =
      .ok (sqlSlice (sortById (d3.filter (fun s => s.industry == industry)))
        (if n < (get_industry_total_pages d2 industry : ℤ) then 20
          else (get_industry_total_records d1 industry : ℤ) - 20 * (n - 1))
        (20 * (n - 1))) := by
  unfold get_stocks_by_page_and_industry
  rw [if_neg (by omega), if_neg hi, if_neg hc, if_neg h2]

/-- Row-count behaviour of a valid page of the area-filtered query over a
fixed dataset. -/
theorem area_page_spec (d : List Stock) (area : String) (n : Int)
    (ha : area ≠ "") (h1 : 1 ≤ n)
    (hc : 0 < get_area_total_records d area)
    (h2 : n ≤ (get_area_total_pages d area : ℤ)) :
    get_stocks_by_page_and_area n area d d d =
      .ok (sqlSlice (sortById (d.filter (fun s => s.area == area)))
        (if n < (get_area_total_pages d area : ℤ) then 20
          else (get_area_total_records d area : ℤ) - 20 * (n - 1))
        (20 * (n - 1))) ∧
    (sqlSlice (sortById (d.filter (fun s => s.area == area)))
        (if n < (get_area_total_pages d area : ℤ) then 20
          else (get_area_total_records d area : ℤ) - 20 * (n - 1))
        (20 * (n - 1))).length =
      (if n < (get_area_total_pages d area : ℤ) then 20
        else get_area_total_records d area - (20 * (n - 1)).toNat) := by
  have hcount : (d.filter (fun s => s.area == area)).length =
      get_area_total_records d area := rfl
  have htp : get_area_total_pages d area =
      (get_area_total_records d area + 20 - 1) / 20 := if_pos hc
  refine ⟨area_ok_shape n area d d d h1 ha (by omega) (by omega), ?_⟩
  rw [sqlSlice_length, sortById_length, hcount]
  rcases lt_or_ge n (get_area_total_pages d area : ℤ) with hlt | hge
  · rw [if_pos hlt, if_pos hlt]
    omega
  · rw [if_neg (not_lt.2 hge), if_neg (not_lt.2 hge)]
    omega

/-- Industry analogue of `area_page_spec`. -/
theorem industry_page_spec (d : List Stock) (industry : String) (n : Int)
    (hi : industry ≠ "") (h1 : 1 ≤ n)
    (hc : 0 < get_industry_total_records d industry)
    (h2 : n ≤ (get_industry_total_pages d industry : ℤ)) :
    get_stocks_by_page_and_industry n industry d d d =
      .ok (sqlSlice (sortById (d.filter (fun s => s.industry == industry)))
        (if n < (get_industry_total_pages d industry : ℤ) then 20
          else (get_industry_total_records d industry : ℤ) - 20 * (n - 1))
        (20 * (n - 1))) ∧
    (sqlSlice (sortById (d.filter (fun s => s.industry == industry)))
        (if n < (get_industry_total_pages d industry : ℤ) then 20
          else (get_industry_total_records d industry : ℤ) - 20 * (n - 1))
        (20 * (n - 1))).length =
      (if n < (get_industry_total_pages d industry : ℤ) then 20
        else get_industry_total_records d industry - (20 * (n - 1)).toNat) := by
  have hcount : (d.filter (fun s => s.industry == industry)).length =
      get_industry_total_records d industry := rfl
  have htp : get_industry_total_pages d industry =
      (get_industry_total_records d industry + 20 - 1) / 20 := if_pos hc
  refine ⟨industry_ok_shape n industry d d d h1 hi (by omega) (by omega), ?_⟩
  rw [sqlSlice_length, sortById_length, hcount]
  rcases lt_or_ge n (get_industry_total_pages d industry : ℤ) with hlt | hge
  · rw [if_pos hlt, if_pos hlt]
    omega
  · rw [if_neg (not_lt.2 hge), if_neg (not_lt.2 hge)]
    omega

/-- In any 15-day calendar window `[t - 14, t]` one can pick 7 distinct
weekdays (Monday-epoch convention: `x % 7 < 5`). -/
theorem seven_weekday_dates (t : Int) :
    ∃ W : List Int, W.length = 7 ∧ W.Nodup ∧
      ∀ x ∈ W, t - 14 ≤ x ∧ x ≤ t ∧ x % 7 < 5 := by
  by_cases h : t % 7 = 0
  · refine ⟨[t - 14, t - 7, t - 6, t - 5, t - 4, t - 3, t], rfl, ?_, ?_⟩
    · simp only [List.nodup_cons, List.mem_cons, List.not_mem_nil,
        List.nodup_nil, or_false, not_or, not_false_iff, and_true]
      omega
    · intro x hx
      simp only [List.mem_cons, List.not_mem_nil, or_false] at hx
      rcases hx with rfl | rfl | rfl | rfl | rfl | rfl | rfl <;>
        refine ⟨by omega, by omega, by omega⟩
  · refine ⟨[t - t % 7 - 7, t - t % 7 - 6, t - t % 7 - 5,
      t - t % 7 - 4, t - t % 7 - 3, t - t % 7, t - t % 7 + 1],
      rfl, ?_, ?_⟩
    · simp only [List.nodup_cons, List.mem_cons, List.not_mem_nil,
        List.nodup_nil, or_false, not_or, not_false_iff, and_true]
      omega
    · intro x hx
      simp only [List.mem_cons, List.not_mem_nil, or_false] at hx
      rcases hx with rfl | rfl | rfl | rfl | rfl | rfl | rfl <;>
        refine ⟨by omega, by omega, by omega⟩

/-- If a bar of the requested ticker exists for every weekday of the window,
the `get_recent_7_days_data` filter matches at least 7 rows. -/
theorem filtered_ge_seven (table : List DailyBar) (code : String) (today : Int)
    (H : ∀ x : Int, today - 14 ≤ x → x ≤ today → x % 7 < 5 →
      ∃ b ∈ table, b.ts_code = code ∧ b.trade_date = x) :
    7 ≤ (table.filter (fun b => b.ts_code == code
      && decide (today - 14 ≤ b.trade_date)
      && decide (b.trade_date % 7 < 5))).length := by
  obtain ⟨W, hlen, hnd, hmem⟩ := seven_weekday_dates today
  have hsub : ∀ x ∈ W, x ∈ (table.filter (fun b => b.ts_code == code
      && decide (today - 14 ≤ b.trade_date)
      && decide (b.trade_date % 7 < 5))).map DailyBar.trade_date := by
    intro x hx
    obtain ⟨h14, ht, hw⟩ := hmem x hx
    obtain ⟨b, hb, hbc, hbd⟩ := H x h14 ht hw
    refine List.mem_map.2 ⟨b, List.mem_filter.2 ⟨hb, ?_⟩, hbd⟩
    simp [hbc, hbd, h14, hw]
  calc (7 : ℕ) = W.length := hlen.symm
    _ = W.toFinset.card := (List.toFinset_card_of_nodup hnd).symm
    _ ≤ ((table.filter (fun b => b.ts_code == code
          && decide (today - 14 ≤ b.trade_date)
          && decide (b.trade_date % 7 < 5))).map DailyBar.trade_date).toFinset.card := by
        refine Finset.card_le_card (fun x hx => ?_)
        exact List.mem_toFinset.2 (hsub x (List.mem_toFinset.1 hx))
    _ ≤ ((table.filter (fun b => b.ts_code == code
          && decide (today - 14 ≤ b.trade_date)
          && decide (b.trade_date % 7 < 5))).map DailyBar.trade_date).length :=
        List.toFinset_card_le _
    _ = _ := by rw [List.length_map]

/-! ### Claims -/

/-- Claim C1 (counterexample): the claim asserts that for every filter
choice — including no filter — a result set with `total_pages = 0` makes
`get_page` return an empty sequence without error.  On the unfiltered path
this is false: with an empty dataset, page 1 raises the page-out-of-range
`ValueError` (页码1超过最大页数0) because `1 > total_pages = 0`. -/
theorem c1_counterexample_unfiltered_empty :
    get_stocks_by_page_number 1 true [] [] [] =
      .error (.pageOutOfRange 1 0) ∧
    get_stocks_by_page_number 1 true [] [] [] ≠ .ok [] := by
  exact ⟨by decide, by decide⟩

/-- Claim C1 (amended): for the area and industry queries, a filter
matching zero rows yields `[]` for every page `n ≥ 1` — not an error;
for the unfiltered query (with `check_total`), an empty dataset
(`total_pages = 0`) instead makes every page number `n ≥ 1` fail with
`PageOutOfRange(n, 0)`. -/
theorem c1_empty_filter_amended (n : Int) (d e : List Stock)
    (area industry : String)
    (h1 : 1 ≤ n) (ha : area ≠ "") (hi : industry ≠ "")
    (hca : get_area_total_records d area = 0)
    (hci : get_industry_total_records d industry = 0)
    (he : get_total_records e = 0) :
    get_stocks_by_page_and_area n area d d d = .ok [] ∧
    get_stocks_by_page_and_industry n industry d d d = .ok [] ∧
    get_stocks_by_page_number n true e e e = .error (.pageOutOfRange n 0) := by
  have htp : get_total_pages e = 0 := by simp [get_total_pages, he]
  refine ⟨?_, ?_, ?_⟩
  · unfold get_stocks_by_page_and_area
    rw [if_neg (by omega), if_neg ha, if_pos hca]
  · unfold get_stocks_by_page_and_industry
    rw [if_neg (by omega), if_neg hi, if_pos hci]
  · unfold get_stocks_by_page_number
    rw [if_neg (by omega), if_pos ⟨rfl, by rw [htp]; omega⟩, htp]

/-- Claim C1 (witness): area `北京` and industry `银行` match no rows of a
5-stock dataset and page 1 returns `[]`; page 1 of the empty unfiltered
dataset errors. -/
theorem c1_empty_filter_amended_witness :
    get_stocks_by_page_and_area 1 "北京" (mkStocks 5) (mkStocks 5) (mkStocks 5) =
      .ok [] ∧
    get_stocks_by_page_and_industry 1 "银行" (mkStocks 5) (mkStocks 5) (mkStocks 5) =
      .ok [] ∧
    get_stocks_by_page_number 1 true [] [] [] = .error (.pageOutOfRange 1 0) :=
  c1_empty_filter_amended 1 (mkStocks 5) [] "北京" "银行" (by decide)
    (by decide) (by decide) (by decide) (by decide) (by decide)

/-- Claim C2 (counterexample): the claim asserts the unfiltered `get_page`
never raises an out-of-range error once validation passed, even if the live
count shrinks.  False: validation over a 45-record snapshot accepts page 3,
but if only 10 records remain at fetch/re-check time, the empty fetch
triggers the post-fetch re-check and raises (页码3超出数据范围). -/
theorem c2_counterexample_shrink_raises :
    (3 : ℤ) ≤ (get_total_pages (mkStocks 45) : ℤ) ∧
    get_stocks_by_page_number 3 true (mkStocks 45) (mkStocks 10) (mkStocks 10) =
      .error (.pageBeyondData 3 10) := by
  exact ⟨by decide, by decide⟩

/-- Claim C2 (amended): after validation passes for page `n` against the
count snapshot `d1`, a shrink is tolerated exactly when the fetched slice
is non-empty, or `n = 1`, or a fresh recount still exceeds the offset: then
the call returns the (possibly shorter than 20) slice.  But when the
fetched slice is empty, `n > 1`, and the recount is at most the offset, the
call raises a secondary out-of-range error instead of returning `[]`. -/
theorem c2_shrink_behavior_amended (n : Int) (d1 d2 d3 : List Stock)
    (h1 : 1 ≤ n) (h2 : n ≤ (get_total_pages d1 : ℤ)) :
    (sqlSlice (sortById d2) 20 (20 * (n - 1)) ≠ [] ∨ n = 1 ∨
        (20 * (n - 1) : ℤ) < (get_total_records d3 : ℤ) →
      get_stocks_by_page_number n true d1 d2 d3 =
        .ok (sqlSlice (sortById d2) 20 (20 * (n - 1))) ∧
      (sqlSlice (sortById d2) 20 (20 * (n - 1))).length ≤ 20) ∧
    (sqlSlice (sortById d2) 20 (20 * (n - 1)) = [] → 1 < n →
      (get_total_records d3 : ℤ) ≤ 20 * (n - 1) →
      get_stocks_by_page_number n true d1 d2 d3 =
        .error (.pageBeyondData n (get_total_records d3))) := by
  have hsz : (sqlSlice (sortById d2) 20 (20 * (n - 1))).length ≤ 20 := by
    rw [sqlSlice_length]; omega
  constructor
  · intro hcase
    refine ⟨?_, hsz⟩
    unfold get_stocks_by_page_number
    rw [if_neg (by omega), if_neg (by rintro ⟨-, hlt⟩; omega)]
    rcases hcase with hne | rfl | hgt
    · rw [if_neg (by rintro ⟨hnil, -, -⟩; exact hne hnil)]
    · rw [if_neg (by rintro ⟨-, hlt, -⟩; omega)]
    · by_cases hcond : sqlSlice (sortById d2) 20 (20 * (n - 1)) = [] ∧
        1 < n ∧ true = true
      · rw [if_pos hcond, if_neg (by omega)]
      · rw [if_neg hcond]
  · intro hnil hn hle
    unfold get_stocks_by_page_number
    rw [if_neg (by omega), if_neg (by rintro ⟨-, hlt⟩; omega),
      if_pos ⟨hnil, hn, rfl⟩, if_pos hle]

/-- Claim C2 (witness): validation against 45 records accepts page 2; with
30 records left at fetch time the call succeeds with a short page of 10
rows. -/
theorem c2_shrink_behavior_amended_witness :
    get_stocks_by_page_number 2 true (mkStocks 45) (mkStocks 30) (mkStocks 30) =
      .ok (sqlSlice (sortById (mkStocks 30)) 20 (20 * ((2 : ℤ) - 1))) ∧
    (sqlSlice (sortById (mkStocks 30)) 20 (20 * ((2 : ℤ) - 1))).length = 10 :=
  ⟨((c2_shrink_behavior_amended 2 (mkStocks 45) (mkStocks 30) (mkStocks 30)
      (by decide) (by decide)).1 (Or.inl (by decide))).1, by decide⟩

/-- Claim C3: over a fixed dataset, for every page `1 ≤ n ≤ total_pages`
the unfiltered query returns exactly the slice of the id-sorted table at
offset `20 * (n - 1)`, of length `min 20 (total - 20 * (n - 1))`, ordered
by ascending id. -/
theorem c3_unfiltered_page_contents (d : List Stock) (n : Int) (h1 : 1 ≤ n)
    (h2 : n ≤ (get_total_pages d : ℤ)) :
    get_stocks_by_page_number n true d d d =
      .ok (((sortById d).drop (20 * (n - 1)).toNat).take 20) ∧
    (((sortById d).drop (20 * (n - 1)).toNat).take 20).length =
      min 20 (get_total_records d - (20 * (n - 1)).toNat) ∧
    (((sortById d).drop (20 * (n - 1)).toNat).take 20).Sorted stockIdLe := by
  have hoff : (20 * (n - 1)).toNat < d.length :=
    offset_lt_of_le_pages n d.length h1 h2
  have hlen : (((sortById d).drop (20 * (n - 1)).toNat).take 20).length =
      min 20 (get_total_records d - (20 * (n - 1)).toNat) := by
    rw [List.length_take, List.length_drop, sortById_length]; rfl
  have hne : (((sortById d).drop (20 * (n - 1)).toNat).take 20) ≠ [] := by
    have : 0 < (((sortById d).drop (20 * (n - 1)).toNat).take 20).length := by
      rw [hlen]; unfold get_total_records; omega
    exact List.ne_nil_of_length_pos this
  refine ⟨?_, hlen, ?_⟩
  · unfold get_stocks_by_page_number
    rw [if_neg (by omega)]
    rw [if_neg (by rintro ⟨-, hlt⟩; omega)]
    simp only [sqlSlice]
    rw [if_neg (by rintro ⟨hnil, -, -⟩; exact hne (by simpa using hnil))]
    rfl
  · exact List.Pairwise.sublist
      ((List.take_sublist _ _).trans (List.drop_sublist _ _)) (sortById_sorted d)

/-- Claim C3 (witness): with 45 records, page 1 has 20 rows and page 3 has
5 rows, each equal to the corresponding slice of the id-sorted table. -/
theorem c3_unfiltered_page_contents_witness :
    get_stocks_by_page_number 1 true (mkStocks 45) (mkStocks 45) (mkStocks 45) =
      .ok (((sortById (mkStocks 45)).drop (20 * ((1 : ℤ) - 1)).toNat).take 20) ∧
    (((sortById (mkStocks 45)).drop (20 * ((1 : ℤ) - 1)).toNat).take 20).length = 20 ∧
    get_stocks_by_page_number 3 true (mkStocks 45) (mkStocks 45) (mkStocks 45) =
      .ok (((sortById (mkStocks 45)).drop (20 * ((3 : ℤ) - 1)).toNat).take 20) ∧
    (((sortById (mkStocks 45)).drop (20 * ((3 : ℤ) - 1)).toNat).take 20).length = 5 :=
  ⟨(c3_unfiltered_page_contents (mkStocks 45) 1 (by decide) (by decide)).1,
   by decide,
   (c3_unfiltered_page_contents (mkStocks 45) 3 (by decide) (by decide)).1,
   by decide⟩

/-- Claim C4: for area and industry queries with a positive match count and
a valid page, the fetch limit is 20 off the last page and `count - offset`
on the last page; the last page therefore has exactly
`count - 20 * (total_pages - 1)` rows, which is at least 1 and at most
20. -/
theorem c4_filtered_limit_last_page (d : List Stock) (area industry : String)
    (n m : Int) (ha : area ≠ "") (hi : industry ≠ "")
    (h1n : 1 ≤ n) (h1m : 1 ≤ m)
    (hca : 0 < get_area_total_records d area)
    (h2a : n ≤ (get_area_total_pages d area : ℤ))
    (hci : 0 < get_industry_total_records d industry)
    (h2i : m ≤ (get_industry_total_pages d industry : ℤ)) :
    (get_stocks_by_page_and_area n area d d d =
      .ok (sqlSlice (sortById (d.filter (fun s => s.area == area)))
        (if n < (get_area_total_pages d area : ℤ) then 20
          else (get_area_total_records d area : ℤ) - 20 * (n - 1))
        (20 * (n - 1))) ∧
     (sqlSlice (sortById (d.filter (fun s => s.area == area)))
        (if n < (get_area_total_pages d area : ℤ) then 20
          else (get_area_total_records d area : ℤ) - 20 * (n - 1))
        (20 * (n - 1))).length =
      (if n < (get_area_total_pages d area : ℤ) then 20
        else get_area_total_records d area - (20 * (n - 1)).toNat) ∧
     (n = (get_area_total_pages d area : ℤ) →
       (sqlSlice (sortById (d.filter (fun s => s.area == area)))
          (if n < (get_area_total_pages d area : ℤ) then 20
            else (get_area_total_records d area : ℤ) - 20 * (n - 1))
          (20 * (n - 1))).length =
         get_area_total_records d area - 20 * (get_area_total_pages d area - 1) ∧
       1 ≤ (sqlSlice (sortById (d.filter (fun s => s.area == area)))
          (if n < (get_area_total_pages d area : ℤ) then 20
            else (get_area_total_records d area : ℤ) - 20 * (n - 1))
          (20 * (n - 1))).length ∧
       (sqlSlice (sortById (d.filter (fun s => s.area == area)))
          (if n < (get_area_total_pages d area : ℤ) then 20
            else (get_area_total_records d area : ℤ) - 20 * (n - 1))
          (20 * (n - 1))).length ≤ 20)) ∧
    (get_stocks_by_page_and_industry m industry d d d =
      .ok (sqlSlice (sortById (d.filter (fun s => s.industry == industry)))
        (if m < (get_industry_total_pages d industry : ℤ) then 20
          else (get_industry_total_records d industry : ℤ) - 20 * (m - 1))
        (20 * (m - 1))) ∧
     (sqlSlice (sortById (d.filter (fun s => s.industry == industry)))
        (if m < (get_industry_total_pages d industry : ℤ) then 20
          else (get_industry_total_records d industry : ℤ) - 20 * (m - 1))
        (20 * (m - 1))).length =
      (if m < (get_industry_total_pages d industry : ℤ) then 20
        else get_industry_total_records d industry - (20 * (m - 1)).toNat) ∧
     (m = (get_industry_total_pages d industry : ℤ) →
       (sqlSlice (sortById (d.filter (fun s => s.industry == industry)))
          (if m < (get_industry_total_pages d industry : ℤ) then 20
            else (get_industry_total_records d industry : ℤ) - 20 * (m - 1))
          (20 * (m - 1))).length =
         get_industry_total_records d industry
           - 20 * (get_industry_total_pages d industry - 1) ∧
       1 ≤ (sqlSlice (sortById (d.filter (fun s => s.industry == industry)))
          (if m < (get_industry_total_pages d industry : ℤ) then 20
            else (get_industry_total_records d industry : ℤ) - 20 * (m - 1))
          (20 * (m - 1))).length ∧
       (sqlSlice (sortById (d.filter (fun s => s.industry == industry)))
          (if m < (get_industry_total_pages d industry : ℤ) then 20
            else (get_industry_total_records d industry : ℤ) - 20 * (m - 1))
          (20 * (m - 1))).length ≤ 20)) := by
  constructor
  · obtain ⟨hok, hlen⟩ := area_page_spec d area n ha h1n hca h2a
    have htp : get_area_total_pages d area =
        (get_area_total_records d area + 20 - 1) / 20 := if_pos hca
    refine ⟨hok, hlen, fun heq => ?_⟩
    rw [hlen, if_neg (by omega)]
    exact ⟨by omega, by omega, by omega⟩
  · obtain ⟨hok, hlen⟩ := industry_page_spec d industry m hi h1m hci h2i
    have htp : get_industry_total_pages d industry =
        (get_industry_total_records d industry + 20 - 1) / 20 := if_pos hci
    refine ⟨hok, hlen, fun heq => ?_⟩
    rw [hlen, if_neg (by omega)]
    exact ⟨by omega, by omega, by omega⟩

/-- Claim C4 (witness): with 45 stocks all in area `SZ` / industry `Tech`,
the last page (page 3) of both filtered queries has exactly 5 rows. -/
theorem c4_filtered_limit_last_page_witness :
    get_stocks_by_page_and_area 3 "SZ" (mkStocks 45) (mkStocks 45) (mkStocks 45) =
      .ok (sqlSlice (sortById ((mkStocks 45).filter (fun s => s.area == "SZ")))
        (if (3 : ℤ) < (get_area_total_pages (mkStocks 45) "SZ" : ℤ) then 20
          else (get_area_total_records (mkStocks 45) "SZ" : ℤ) - 20 * (3 - 1))
        (20 * (3 - 1))) ∧
    (sqlSlice (sortById ((mkStocks 45).filter (fun s => s.area == "SZ")))
        (if (3 : ℤ) < (get_area_total_pages (mkStocks 45) "SZ" : ℤ) then 20
          else (get_area_total_records (mkStocks 45) "SZ" : ℤ) - 20 * (3 - 1))
        (20 * (3 - 1))).length = 5 ∧
    get_stocks_by_page_and_industry 3 "Tech" (mkStocks 45) (mkStocks 45) (mkStocks 45) =
      .ok (sqlSlice (sortById ((mkStocks 45).filter (fun s => s.industry == "Tech")))
        (if (3 : ℤ) < (get_industry_total_pages (mkStocks 45) "Tech" : ℤ) then 20
          else (get_industry_total_records (mkStocks 45) "Tech" : ℤ) - 20 * (3 - 1))
        (20 * (3 - 1))) ∧
    (sqlSlice (sortById ((mkStocks 45).filter (fun s => s.industry == "Tech")))
        (if (3 : ℤ) < (get_industry_total_pages (mkStocks 45) "Tech" : ℤ) then 20
          else (get_industry_total_records (mkStocks 45) "Tech" : ℤ) - 20 * (3 - 1))
        (20 * (3 - 1))).length = 5 :=
  ⟨(c4_filtered_limit_last_page (mkStocks 45) "SZ" "Tech" 3 3 (by decide)
      (by decide) (by decide) (by decide) (by decide) (by decide) (by decide)
      (by decide)).1.1,
   by decide,
   (c4_filtered_limit_last_page (mkStocks 45) "SZ" "Tech" 3 3 (by decide)
      (by decide) (by decide) (by decide) (by decide) (by decide) (by decide)
      (by decide)).2.1,
   by decide⟩

/-- Claim C5: every total-pages variant returns 0 on a zero count and the
ceiling of `count / 20` on a positive count; the result is monotone
non-decreasing in the count, and a 25-record count yields 2 pages. -/
theorem c5_total_pages_spec (d d' : List Stock) (area industry : String)
    (hle : get_total_records d ≤ get_total_records d') :
    ((get_total_pages d : ℤ) =
      if get_total_records d = 0 then 0
      else ⌈(get_total_records d : ℚ) / 20⌉) ∧
    ((get_area_total_pages d area : ℤ) =
      if get_area_total_records d area = 0 then 0
      else ⌈(get_area_total_records d area : ℚ) / 20⌉) ∧
    ((get_industry_total_pages d industry : ℤ) =
      if get_industry_total_records d industry = 0 then 0
      else ⌈(get_industry_total_records d industry : ℚ) / 20⌉) ∧
    get_total_pages d ≤ get_total_pages d' ∧
    get_total_pages (mkStocks 25) = 2 := by
  refine ⟨pages_formula_cases _, pages_formula_cases _, pages_formula_cases _,
    ?_, by decide⟩
  show (if 0 < get_total_records d then _ else 0) ≤
    (if 0 < get_total_records d' then _ else 0)
  split <;> split <;> omega

/-- Claim C5 (witness): instantiation at the empty dataset and a 25-record
dataset: monotone step `0 ≤ 2` and `get_total_pages = 2` at 25 records. -/
theorem c5_total_pages_spec_witness :
    get_total_pages [] ≤ get_total_pages (mkStocks 25) ∧
    get_total_pages (mkStocks 25) = 2 :=
  ⟨(c5_total_pages_spec [] (mkStocks 25) "SZ" "Tech" (by decide)).2.2.2.1,
   (c5_total_pages_spec [] (mkStocks 25) "SZ" "Tech" (by decide)).2.2.2.2⟩

/-- Claim C6: every paginated fetch rejects a page number below 1 with the
invalid-argument error, and when the total page count is positive, a page
number above it fails with the page-out-of-range error carrying both the
requested page and the actual total page count. -/
theorem c6_page_validation_errors (n : Int) (d : List Stock)
    (area industry : String) (ha : area ≠ "") (hi : industry ≠ "") :
    (n < 1 →
      get_stocks_by_page_number n true d d d =
        .error (.invalidArgument "页码n必须大于等于1") ∧
      get_stocks_by_page_and_area n area d d d =
        .error (.invalidArgument "页码n必须大于等于1") ∧
      get_stocks_by_page_and_industry n industry d d d =
        .error (.invalidArgument "页码n必须大于等于1")) ∧
    (1 ≤ n →
      (0 < get_total_pages d → (get_total_pages d : ℤ) < n →
        get_stocks_by_page_number n true d d d =
          .error (.pageOutOfRange n (get_total_pages d))) ∧
      (0 < get_area_total_pages d area →
        (get_area_total_pages d area : ℤ) < n →
        get_stocks_by_page_and_area n area d d d =
          .error (.pageOutOfRange n (get_area_total_pages d area))) ∧
      (0 < get_industry_total_pages d industry →
        (get_industry_total_pages d industry : ℤ) < n →
        get_stocks_by_page_and_industry n industry d d d =
          .error (.pageOutOfRange n (get_industry_total_pages d industry)))) := by
  constructor
  · intro hn
    refine ⟨?_, ?_, ?_⟩
    · unfold get_stocks_by_page_number
      rw [if_pos hn]
    · unfold get_stocks_by_page_and_area
      rw [if_pos hn]
    · unfold get_stocks_by_page_and_industry
      rw [if_pos hn]
  · intro hn
    refine ⟨?_, ?_, ?_⟩
    · intro htp hlt
      unfold get_stocks_by_page_number
      rw [if_neg (by omega), if_pos ⟨rfl, hlt⟩]
    · intro htp hlt
      have hc : get_area_total_records d area ≠ 0 := by
        intro h0
        have : get_area_total_pages d area = 0 := by
          simp [get_area_total_pages, h0]
        omega
      unfold get_stocks_by_page_and_area
      rw [if_neg (by omega), if_neg ha, if_neg hc, if_pos hlt]
    · intro htp hlt
      have hc : get_industry_total_records d industry ≠ 0 := by
        intro h0
        have : get_industry_total_pages d industry = 0 := by
          simp [get_industry_total_pages, h0]
        omega
      unfold get_stocks_by_page_and_industry
      rw [if_neg (by omega), if_neg hi, if_neg hc, if_pos hlt]

/-- Claim C6 (witness): page 0 is rejected as invalid; with 45 records
(3 pages) page 4 fails with `PageOutOfRange(requested = 4,
total_pages = 3)`. -/
theorem c6_page_validation_errors_witness :
    get_stocks_by_page_number 0 true (mkStocks 45) (mkStocks 45) (mkStocks 45) =
      .error (.invalidArgument "页码n必须大于等于1") ∧
    get_stocks_by_page_number 4 true (mkStocks 45) (mkStocks 45) (mkStocks 45) =
      .error (.pageOutOfRange 4 (get_total_pages (mkStocks 45))) ∧
    get_total_pages (mkStocks 45) = 3 :=
  ⟨((c6_page_validation_errors 0 (mkStocks 45) "SZ" "Tech" (by decide)
      (by decide)).1 (by decide)).1,
   ((c6_page_validation_errors 4 (mkStocks 45) "SZ" "Tech" (by decide)
      (by decide)).2 (by decide)).1 (by decide) (by decide),
   by decide⟩

/-- Claim C7: the point lookups by symbol and by name fail with the
invalid-argument error exactly on the empty string; a non-empty value that
matches no row yields the not-found sentinel `none`, never an error. -/
theorem c7_point_lookup_errors (d : List Stock) (value : String)
    (hv : value ≠ "") :
    get_stock_by_symbol d "" = .error (.invalidArgument "股票代码不能为空") ∧
    get_stock_by_name d "" = .error (.invalidArgument "股票名称不能为空") ∧
    ((∀ s ∈ d, s.symbol ≠ value) → get_stock_by_symbol d value = .ok none) ∧
    ((∀ s ∈ d, s.name ≠ value) → get_stock_by_name d value = .ok none) ∧
    (∀ e, get_stock_by_symbol d value ≠ .error e) ∧
    (∀ e, get_stock_by_name d value ≠ .error e) := by
  refine ⟨?_, ?_, ?_, ?_, ?_, ?_⟩
  · unfold get_stock_by_symbol
    rw [if_pos rfl]
  · unfold get_stock_by_name
    rw [if_pos rfl]
  · intro hnone
    unfold get_stock_by_symbol
    rw [if_neg hv]
    have : d.find? (fun s => s.symbol == value) = none := by
      rw [List.find?_eq_none]
      intro s hs
      simpa using hnone s hs
    rw [this]
  · intro hnone
    unfold get_stock_by_name
    rw [if_neg hv]
    have : d.find? (fun s => s.name == value) = none := by
      rw [List.find?_eq_none]
      intro s hs
      simpa using hnone s hs
    rw [this]
  · intro e
    unfold get_stock_by_symbol
    rw [if_neg hv]
    exact fun h => Except.noConfusion h
  · intro e
    unfold get_stock_by_name
    rw [if_neg hv]
    exact fun h => Except.noConfusion h

/-- Claim C7 (witness): the empty symbol is rejected, and the symbol
`DOESNOTEXIST` (absent from a 3-stock dataset) yields the sentinel
`none`. -/
theorem c7_point_lookup_errors_witness :
    get_stock_by_symbol (mkStocks 3) "" =
      .error (.invalidArgument "股票代码不能为空") ∧
    get_stock_by_symbol (mkStocks 3) "DOESNOTEXIST" = .ok none :=
  ⟨(c7_point_lookup_errors (mkStocks 3) "DOESNOTEXIST" (by decide)).1,
   (c7_point_lookup_errors (mkStocks 3) "DOESNOTEXIST" (by decide)).2.2.1
     (by decide)⟩

/-- Claim C8 (counterexample): the claim asserts every returned row has a
trade date within the last 14 calendar days.  The query only enforces the
lower bound `trade_date >= CURDATE() - 14`, so a future-dated weekday bar
(day 105 with today = 100) is returned even though it is not within the
last 14 days. -/
theorem c8_counterexample_future_date :
    get_recent_7_days_data [mkBar 105] 100 "000001.SZ" = .ok [mkBar 105] ∧
    ¬((105 : ℤ) ≤ 100) := by
  exact ⟨by decide, by decide⟩

/-- Claim C8 (amended): for every non-empty ticker, the call succeeds and
returns at most 7 rows, each with the requested ticker, a trade date no
earlier than 14 days before today (the query imposes no upper bound, so
future-dated rows also qualify), and a weekday trade date, ordered
descending by trade date; if a bar of the ticker exists for every weekday
in `[today - 14, today]`, exactly 7 rows are returned. -/
theorem c8_recent_days_amended (table : List DailyBar) (today : Int)
    (code : String) (hc : code ≠ "") :
    get_recent_7_days_data table today code =
      .ok (recent7Rows table today code) ∧
    (recent7Rows table today code).length ≤ 7 ∧
    (∀ b ∈ recent7Rows table today code,
      b.ts_code = code ∧ today - 14 ≤ b.trade_date ∧ b.trade_date % 7 < 5) ∧
    (recent7Rows table today code).Sorted barDateGe ∧
    ((∀ x : Int, today - 14 ≤ x → x ≤ today → x % 7 < 5 →
        ∃ b ∈ table, b.ts_code = code ∧ b.trade_date = x) →
      (recent7Rows table today code).length = 7) := by
  refine ⟨?_, ?_, ?_, ?_, ?_⟩
  · unfold get_recent_7_days_data
    rw [if_neg hc]
    rfl
  · exact List.length_take_le 7 _
  · intro b hb
    have hmem : b ∈ table.filter (fun b => b.ts_code == code
        && decide (today - 14 ≤ b.trade_date)
        && decide (b.trade_date % 7 < 5)) :=
      List.mem_insertionSort barDateGe |>.1 (List.mem_of_mem_take hb)
    have hp := (List.mem_filter.1 hmem).2
    simp only [Bool.and_eq_true, beq_iff_eq, decide_eq_true_eq] at hp
    exact ⟨hp.1.1, hp.1.2, hp.2⟩
  · exact List.Pairwise.sublist (List.take_sublist _ _)
      (List.sorted_insertionSort barDateGe _)
  · intro H
    have h7 := filtered_ge_seven table code today H
    unfold recent7Rows
    rw [List.length_take, List.length_insertionSort]
    omega

/-- Claim C8 (witness): with bars on every weekday of the window `[0, 14]`
and today = 14, the call returns exactly 7 rows, most-recent first
(trade dates 14, 11, 10, 9, 8, 7, 4). -/
theorem c8_recent_days_amended_witness :
    get_recent_7_days_data weekdayBars 14 "000001.SZ" =
      .ok (recent7Rows weekdayBars 14 "000001.SZ") ∧
    (recent7Rows weekdayBars 14 "000001.SZ").length = 7 ∧
    (recent7Rows weekdayBars 14 "000001.SZ").map DailyBar.trade_date =
      [14, 11, 10, 9, 8, 7, 4] := by
  refine ⟨(c8_recent_days_amended weekdayBars 14 "000001.SZ" (by decide)).1,
    (c8_recent_days_amended weekdayBars 14 "000001.SZ" (by decide)).2.2.2.2 ?_,
    by decide⟩
  intro x h1 h2 h3
  interval_cases x <;> first | (exfalso; omega) | decide

/-- Claim C9: validation precedes storage access — whenever an argument is
invalid (page number below 1, or a required text parameter empty), each
operation returns the invalid-argument error.  All dataset snapshots are
universally quantified and absent from the conclusion, so the outcome is
identical for every dataset state and no storage read influences it. -/
theorem c9_validation_before_storage (n m : Int) (hn : n < 1) (ct : Bool)
    (a ind : String) (d1 d2 d3 : List Stock) (t : List DailyBar)
    (td td2 : Int) (ir : List IndicatorRow) (pr : List PredictionRow) :
    get_stocks_by_page_number n ct d1 d2 d3 =
      .error (.invalidArgument "页码n必须大于等于1") ∧
    get_stocks_by_page_and_area n a d1 d2 d3 =
      .error (.invalidArgument "页码n必须大于等于1") ∧
    get_stocks_by_page_and_industry n ind d1 d2 d3 =
      .error (.invalidArgument "页码n必须大于等于1") ∧
    (∃ msg, get_stocks_by_page_and_area m "" d1 d2 d3 =
      .error (.invalidArgument msg)) ∧
    (∃ msg, get_stocks_by_page_and_industry m "" d1 d2 d3 =
      .error (.invalidArgument msg)) ∧
    get_stock_by_symbol d1 "" = .error (.invalidArgument "股票代码不能为空") ∧
    get_stock_by_name d1 "" = .error (.invalidArgument "股票名称不能为空") ∧
    get_recent_7_days_data t td "" =
      .error (.invalidArgument "股票唯一代码不能为空") ∧
    get_latest_technical_indicators ir "" =
      .error (.invalidArgument "股票唯一代码不能为空") ∧
    get_today_predictions_by_ts_code pr td2 "" =
      .error (.invalidArgument "股票唯一代码不能为空") := by
  refine ⟨?_, ?_, ?_, ?_, ?_, ?_, ?_, ?_, ?_, ?_⟩
  · unfold get_stocks_by_page_number
    rw [if_pos hn]
  · unfold get_stocks_by_page_and_area
    rw [if_pos hn]
  · unfold get_stocks_by_page_and_industry
    rw [if_pos hn]
  · by_cases hm : m < 1
    · exact ⟨"页码n必须大于等于1",
        by unfold get_stocks_by_page_and_area; rw [if_pos hm]⟩
    · exact ⟨"地域参数不能为空",
        by unfold get_stocks_by_page_and_area; rw [if_neg hm, if_pos rfl]⟩
  · by_cases hm : m < 1
    · exact ⟨"页码n必须大于等于1",
        by unfold get_stocks_by_page_and_industry; rw [if_pos hm]⟩
    · exact ⟨"行业参数不能为空",
        by unfold get_stocks_by_page_and_industry; rw [if_neg hm, if_pos rfl]⟩
  · unfold get_stock_by_symbol
    rw [if_pos rfl]
  · unfold get_stock_by_name
    rw [if_pos rfl]
  · unfold get_recent_7_days_data
    rw [if_pos rfl]
  · unfold get_latest_technical_indicators
    rw [if_pos rfl]
  · unfold get_today_predictions_by_ts_code
    rw [if_pos rfl]

/-- Claim C9 (witness): page 0 on an empty dataset and an empty ticker code
on an empty bar table both fail with the invalid-argument error. -/
theorem c9_validation_before_storage_witness :
    get_stocks_by_page_number 0 true [] [] [] =
      .error (.invalidArgument "页码n必须大于等于1") ∧
    get_recent_7_days_data [] 0 "" =
      .error (.invalidArgument "股票唯一代码不能为空") :=
  ⟨(c9_validation_before_storage 0 5 (by decide) true "SZ" "Tech" [] [] []
      [] 0 0 [] []).1,
   (c9_validation_before_storage 0 5 (by decide) true "SZ" "Tech" [] [] []
      [] 0 0 [] []).2.2.2.2.2.2.2.1⟩

/-- Claim C10: with `check_total = False`, `get_stocks_by_page_number`
performs no upper-bound page validation: the result does not depend on the
snapshots the count calls would read, a page whose offset reaches past the
record count returns `[]` instead of raising, and page numbers below 1 are
still rejected. -/
theorem c10_no_upper_bound_check (n : Int) (d1 d1' d2 d3 d3' : List Stock) :
    get_stocks_by_page_number n false d1 d2 d3 =
      get_stocks_by_page_number n false d1' d2 d3' ∧
    (n < 1 → get_stocks_by_page_number n false d1 d2 d3 =
      .error (.invalidArgument "页码n必须大于等于1")) ∧
    (1 ≤ n → (get_total_records d2 : ℤ) ≤ 20 * (n - 1) →
      get_stocks_by_page_number n false d1 d2 d3 = .ok []) := by
  have hshape : ∀ e1 e3 : List Stock, ¬(n < 1) →
      get_stocks_by_page_number n false e1 d2 e3 =
        .ok (sqlSlice (sortById d2) 20 (20 * (n - 1))) := by
    intro e1 e3 hn
    unfold get_stocks_by_page_number
    rw [if_neg hn, if_neg (by rintro ⟨h, -⟩; cases h),
      if_neg (by rintro ⟨-, -, h⟩; cases h)]
  refine ⟨?_, ?_, ?_⟩
  · by_cases hn : n < 1
    · unfold get_stocks_by_page_number
      rw [if_pos hn, if_pos hn]
    · rw [hshape d1 d3 hn, hshape d1' d3' hn]
  · intro hn
    unfold get_stocks_by_page_number
    rw [if_pos hn]
  · intro hn hoff
    rw [hshape d1 d3 (by omega)]
    have : (sqlSlice (sortById d2) 20 (20 * (n - 1))).length = 0 := by
      rw [sqlSlice_length, sortById_length]
      unfold get_total_records at hoff
      omega
    rw [List.length_eq_zero.1 this]

/-- Claim C10 (witness): page 2 of a 10-record dataset with
`check_total = False` returns `[]` (offset 20 is past the 10 records), and
the result is unchanged under different count-snapshot datasets. -/
theorem c10_no_upper_bound_check_witness :
    get_stocks_by_page_number 2 false (mkStocks 45) (mkStocks 10) [] =
      get_stocks_by_page_number 2 false [] (mkStocks 10) (mkStocks 45) ∧
    get_stocks_by_page_number 2 false (mkStocks 45) (mkStocks 10) [] = .ok [] :=
  ⟨(c10_no_upper_bound_check 2 (mkStocks 45) [] (mkStocks 10) [] (mkStocks 45)).1,
   (c10_no_upper_bound_check 2 (mkStocks 45) [] (mkStocks 10) [] (mkStocks 45)).2.2
     (by decide) (by decide)⟩
